import Mathlib

/-!
Shallow embedding of `src/feedback_bot.py` (Feedback_Impact_bot).

The bot drives a five-question feedback questionnaire over Telegram,
discovered from Notion meetings.  The SQLite tables `questionnaires` and
`processed_meetings` are modelled by `Store`; the message/record-store side
effects are modelled by an explicit `Effect` trace; Python exceptions are
modelled by the `err` field of `PRes` (an exception aborts the rest of the
function and is caught at each loop boundary, as in the source).
-/

namespace FeedbackBot

/-- Key of a Python dict as used in `process_answer`: `json.loads` yields
string keys, while `answers[question_num] = points` inserts an `int` key,
so one in-memory dict mixes both key types. -/
inductive JKey where
  | str (s : String)
  | int (n : Int)
deriving DecidableEq, Repr

/-- Python dict assignment `d[k] = v`: update in place when the key is
present (insertion order kept), otherwise append. -/
def dictSet (d : List (JKey × Int)) (k : JKey) (v : Int) : List (JKey × Int) :=
  if d.any (fun p => p.1 == k) then
    d.map (fun p => if p.1 == k then (k, v) else p)
  else d ++ [(k, v)]

/-- Python `d.get(k, default)` without the default: `none` when absent. -/
def dictGet (d : List (JKey × Int)) (k : JKey) : Option Int :=
  (d.find? (fun p => p.1 == k)).map Prod.snd

/-- How `json.dumps` renders a dict key: `int` keys are coerced to their
decimal string. -/
def keyStr : JKey → String
  | .str s => s
  | .int n => toString n

/-- The `json.dumps` image of an answers dict, as the association list of
rendered key/value pairs (duplicate rendered keys are kept, as in CPython). -/
def jsonDumps (d : List (JKey × Int)) : List (String × Int) :=
  d.map (fun p => (keyStr p.1, p.2))

/-- The dict produced by `json.loads` on a stored answers column: all keys
are strings, and a duplicated key keeps the last value. -/
def jsonLoads (l : List (String × Int)) : List (JKey × Int) :=
  l.foldl (fun d p => dictSet d (.str p.1) p.2) []

/-- One row of the `questionnaires` table.  `answers` holds the JSON text
column in parsed form (the association list `json.dumps` produced);
`created_at` is the opaque timestamp string. -/
structure Questionnaire where
  chat_id : String
  meeting_id : String
  meeting_name : String
  student_id : String
  status : String
  current_question : Int
  answers : List (String × Int)
  last_message_id : Option Nat
  created_at : String
deriving DecidableEq, Repr

/-- The durable SQLite state plus the counter the messaging channel uses to
hand out fresh `message_id`s. -/
structure Store where
  questionnaires : List Questionnaire
  processed : List String
  nextMsgId : Nat
deriving DecidableEq, Repr

/-- The feedback record `save_feedback_to_notion` writes: the five numeric
score properties, in question order, plus the relations and metadata. -/
structure FeedbackRecord where
  meeting : String
  student : String
  score1 : Int
  score2 : Int
  score3 : Int
  score4 : Int
  score5 : Int
  meetingName : String
  chat : String
deriving DecidableEq, Repr

/-- Observable side effects on the collaborators, in program order. -/
inductive Effect where
  | insertQ (row : Questionnaire)
  | sendPrompt (chat meeting : String) (msgId : Nat)
  | persistRef (chat meeting : String) (msgId : Nat)
  | markProcessed (meeting : String)
  | editMsg (chat : String) (msgId : Nat)
  | deleteMsg (chat : String) (msgId : Nat)
  | saveFeedback (rec : FeedbackRecord)
  | markNotionCompleted (meeting : String)
deriving DecidableEq, Repr

/-- Python exceptions relevant to the embedded code paths. -/
inductive PyErr where
  | dataShape
  | integrityError
  | indexError
  | valueError
  | transient
deriving DecidableEq, Repr

/-- Result of running one handler: the store it left behind, the effects it
emitted before returning or raising, and the exception it raised, if any. -/
structure PRes where
  store : Store
  trace : List Effect
  err : Option PyErr
deriving DecidableEq, Repr

/-- The `SELECT ... WHERE chat_id = ? AND meeting_id = ?` lookup. -/
def lookupQ (s : Store) (chat meeting : String) : Option Questionnaire :=
  s.questionnaires.find? (fun r => r.chat_id == chat && r.meeting_id == meeting)

/-- The pair `(chat_id, meeting_id)` is the PRIMARY KEY of `questionnaires`;
this is the uniqueness the schema enforces. -/
def keysNodup (s : Store) : Prop :=
  (s.questionnaires.map (fun r => (r.chat_id, r.meeting_id))).Nodup

/-- A completed-meeting snapshot as `process_meeting` reads it.  Each field
that the code digs out of the nested Notion response is an `Option`: `none`
models the field being absent, in which case the access raises (modelled as
`PyErr.dataShape`).  `mentor_name` stands for the name already resolved via
`get_notion_page_name`. -/
structure MeetingRec where
  id : String
  name : Option String
  mentor_name : Option String
  student_id : Option String
  chat_id : Option String
deriving DecidableEq, Repr

/-- Transcription of `process_meeting`: extract the fields (raising on a
missing one), skip if the meeting is already in `processed_meetings`,
otherwise insert the pending row, send the initial prompt, persist the
returned `message_id` on the row, and only then mark the meeting processed.
`sendOk` says whether the Telegram send succeeds; a failed send raises after
the insert, so the meeting is left unmarked. -/
def process_meeting (s : Store) (m : MeetingRec) (sendOk : Bool) : PRes :=
  match m.name, m.mentor_name, m.student_id, m.chat_id with
  | some name, some _mentor, some student, some chat =>
    if s.processed.contains m.id then ⟨s, [], none⟩
    else if (lookupQ s chat m.id).isSome then ⟨s, [], some .integrityError⟩
    else
      let row : Questionnaire := ⟨chat, m.id, name, student, "pending", 0, [], none, ""⟩
      let s1 : Store := { s with questionnaires := s.questionnaires ++ [row] }
      if sendOk then
        let mid := s1.nextMsgId
        let qs := s1.questionnaires.map (fun r =>
          if r.chat_id == chat && r.meeting_id == m.id then
            { r with last_message_id := some mid } else r)
        let s2 : Store :=
          { questionnaires := qs, processed := s1.processed ++ [m.id], nextMsgId := mid + 1 }
        ⟨s2, [.insertQ row, .sendPrompt chat m.id mid, .persistRef chat m.id mid,
              .markProcessed m.id], none⟩
      else
        ⟨s1, [.insertQ row], some .transient⟩
  | _, _, _, _ => ⟨s, [], some .dataShape⟩

/-- One cycle of `run_notion_checker`: the `for meeting in meetings` loop
sits inside a single `try`, so the first exception aborts the remaining
meetings of the cycle and is caught (logged) at the cycle boundary. -/
def notionCheckerCycle (s : Store) (ms : List MeetingRec) : Store × List Effect :=
  match ms with
  | [] => (s, [])
  | m :: rest =>
    let r := process_meeting s m true
    match r.err with
    | some _ => (r.store, r.trace)
    | none =>
      let rec' := notionCheckerCycle r.store rest
      (rec'.1, r.trace ++ rec'.2)

/-- Transcription of `start_questionnaire`: pick the first `pending` row of
the chat, set it to `in_progress` with `current_question = 1`, and edit the
prompt message into question 1.  The `meeting_name` argument is accepted, as
in the source, but never used. -/
def start_questionnaire (s : Store) (chat_id meeting_name : String) (message_id : Nat) : PRes :=
  match s.questionnaires.find? (fun r => r.chat_id == chat_id && r.status == "pending") with
  | none => ⟨s, [], none⟩
  | some row =>
    let qs := s.questionnaires.map (fun r =>
      if r.chat_id == chat_id && r.meeting_id == row.meeting_id then
        { r with status := "in_progress", current_question := 1 } else r)
    ⟨{ s with questionnaires := qs }, [.editMsg chat_id message_id], none⟩

/-- The effect `save_feedback_to_notion` emits: re-read the row for
`student_id` and `meeting_name`, then create the feedback page.  Questions
1 to 4 are read back with *string* keys, question 5 with the *int* key 5,
exactly as in the source (`answers.get` with mixed key types). -/
def save_feedback_to_notion (s : Store) (chat meeting : String)
    (answers : List (JKey × Int)) : List Effect :=
  match lookupQ s chat meeting with
  | none => []
  | some row =>
    [.saveFeedback
      { meeting := meeting
        student := row.student_id
        score1 := (dictGet answers (.str "1")).getD 0
        score2 := (dictGet answers (.str "2")).getD 0
        score3 := (dictGet answers (.str "3")).getD 0
        score4 := (dictGet answers (.str "4")).getD 0
        score5 := (dictGet answers (.int 5)).getD 0
        meetingName := row.meeting_name
        chat := chat }]

/-- Transcription of `process_answer`: find the chat's `in_progress` row,
record `answers[question_num] = points` (note: the source never compares
`question_num` against `current_question`), advance `current_question`, and
either edit to the next question or, past question 5, complete the row,
write the feedback record and set the meeting's feedback flag. -/
def process_answer (s : Store) (chat_id : String) (question_num points : Int)
    (message_id : Nat) : PRes :=
  match s.questionnaires.find? (fun r => r.chat_id == chat_id && r.status == "in_progress") with
  | none => ⟨s, [], none⟩
  | some row =>
    let answers := dictSet (jsonLoads row.answers) (.int question_num) points
    let next := row.current_question + 1
    if next ≤ 5 then
      let qs := s.questionnaires.map (fun r =>
        if r.chat_id == chat_id && r.meeting_id == row.meeting_id then
          { r with answers := jsonDumps answers, current_question := next } else r)
      ⟨{ s with questionnaires := qs }, [.editMsg chat_id message_id], none⟩
    else
      let qs := s.questionnaires.map (fun r =>
        if r.chat_id == chat_id && r.meeting_id == row.meeting_id then
          { r with answers := jsonDumps answers, status := "completed",
                   current_question := next } else r)
      let s' : Store := { s with questionnaires := qs }
      ⟨s', .editMsg chat_id message_id ::
            (save_feedback_to_notion s' chat_id row.meeting_id answers
              ++ [.markNotionCompleted row.meeting_id]), none⟩

/-- Python `payload.split(",")` on the character list. -/
def splitCommaChars : List Char → List (List Char)
  | [] => [[]]
  | c :: rest =>
    let r := splitCommaChars rest
    if c = ',' then [] :: r
    else (c :: r.headI) :: r.tail

/-- Python `payload.split(",")`. -/
def pySplit (s : String) : List String :=
  (splitCommaChars s.toList).map List.asString

/-- Python `int(s)` on the digit strings the bot produces: an optional
minus sign followed by decimal digits; anything else raises `ValueError`
(modelled as `none`). -/
def parseNatAux : List Char → Nat → Option Nat
  | [], acc => some acc
  | c :: cs, acc =>
    if c.isDigit then parseNatAux cs (acc * 10 + (c.toNat - 48)) else none

/-- Python `int(s)` (see `parseNatAux`). -/
def pyInt (s : String) : Option Int :=
  match s.toList with
  | [] => none
  | '-' :: cs => if cs = [] then none else (parseNatAux cs 0).map (fun n => -(n : Int))
  | cs => (parseNatAux cs 0).map (fun n => (n : Int))

/-- Transcription of `handle_callback_query`: split the payload on commas,
dispatch on the first field.  A `start` payload with no second field raises
`IndexError`; an `answer` payload raises `IndexError` or `ValueError` at
the first missing or non-numeric positional field (same evaluation order as
the source); any other action falls through and is ignored. -/
def handle_callback_query (st : Store) (payload : String) (message_id : Nat) : PRes :=
  let data := pySplit payload
  let action := data.headI
  if action = "start" then
    match data[1]? with
    | none => ⟨st, [], some .indexError⟩
    | some chat_id =>
      let meeting_name := (data[2]?).getD ""
      start_questionnaire st chat_id meeting_name message_id
  else if action = "answer" then
    match data[1]?, data[2]? with
    | some chat_id, some _meeting_id =>
      match data[3]? with
      | none => ⟨st, [], some .indexError⟩
      | some qs =>
        match pyInt qs with
        | none => ⟨st, [], some .valueError⟩
        | some q =>
          match data[4]? with
          | none => ⟨st, [], some .indexError⟩
          | some ps =>
            match pyInt ps with
            | none => ⟨st, [], some .valueError⟩
            | some p => process_answer st chat_id q p message_id
    | _, _ => ⟨st, [], some .indexError⟩
  else ⟨st, [], none⟩

/-- One pass of the `for ... in pending` loop of `run_reminder_checker`,
walking the table in row order: each `pending` row has its previous prompt
deleted (when a `last_message_id` is recorded), gets a fresh prompt with
the next message id, and has `last_message_id` updated; other rows are
untouched.  Returns the new rows, the advanced message-id counter and the
emitted effects. -/
def remindRows : List Questionnaire → Nat → List Questionnaire × Nat × List Effect
  | [], ctr => ([], ctr, [])
  | r :: rest, ctr =>
    if r.status == "pending" then
      let res := remindRows rest (ctr + 1)
      ({ r with last_message_id := some ctr } :: res.1, res.2.1,
        (match r.last_message_id with
          | some old => [Effect.deleteMsg r.chat_id old]
          | none => []) ++ Effect.sendPrompt r.chat_id r.meeting_id ctr :: res.2.2)
    else
      let res := remindRows rest ctr
      (r :: res.1, res.2.1, res.2.2)

/-- One cycle of `run_reminder_checker` over the store. -/
def reminderCycle (s : Store) : Store × List Effect :=
  let res := remindRows s.questionnaires s.nextMsgId
  ({ s with questionnaires := res.1, nextMsgId := res.2.1 }, res.2.2)

/-- The operations the three loops apply to the questionnaire table. -/
inductive Op where
  | create (m : MeetingRec) (sendOk : Bool)
  | start (chat name : String) (mid : Nat)
  | answer (chat : String) (q pts : Int) (mid : Nat)

/-- The store each operation leaves behind. -/
def applyOp (s : Store) : Op → Store
  | .create m b => (process_meeting s m b).store
  | .start c n mid => (start_questionnaire s c n mid).store
  | .answer c q p mid => (process_answer s c q p mid).store

/-- Answer events applied in sequence to a chat, each a pair
`(question_num, points)`. -/
def applyAnswers (s : Store) (chat : String) (l : List (Int × Int)) (mid : Nat) : Store :=
  l.foldl (fun st p => (process_answer st chat p.1 p.2 mid).store) s

/-! Concrete fixtures used by the individual claims. -/

/-- A questionnaire sitting at question 2 with question 1 already answered. -/
def c1Store : Store :=
  ⟨[⟨"123", "m1", "Sprint", "stu", "in_progress", 2, [("1", 5)], some 10, ""⟩], ["m1"], 20⟩

/-- A freshly started questionnaire (question 1 outstanding, no answers). -/
def c2Store : Store :=
  ⟨[⟨"123", "m1", "Sprint", "stu", "in_progress", 1, [], some 10, ""⟩], ["m1"], 20⟩

/-- A pending questionnaire for the round-trip scenario of C6. -/
def c6Store : Store :=
  ⟨[⟨"123", "m1", "Sprint Review", "stu", "pending", 0, [], none, ""⟩], ["m1"], 50⟩

/-- The c6 store after `start` and the first four in-order answers
5, 4, 3, 2. -/
def c6Store4 : Store :=
  applyAnswers (start_questionnaire c6Store "123" "Sprint Review" 7).store "123"
    [(1, 5), (2, 4), (3, 3), (4, 2)] 7

/-- A meeting whose `Name` property is missing: extracting it raises. -/
def c8BadMeeting : MeetingRec := ⟨"mBad", none, some "Mentor", some "stu", some "9"⟩

/-- A well-formed, undiscovered meeting in the same cycle as `c8BadMeeting`. -/
def c8GoodMeeting : MeetingRec := ⟨"mGood", some "Good", some "Mentor", some "stu", some "9"⟩

/-- C1: the spec says an answer event is accepted iff its question index
equals `current_question`, and that a stale index leaves the row and the
message unchanged.  The source `process_answer` never compares
`question_num` with `current_question`: on the fixture row (at question 2,
question 1 answered) a replayed answer for question 1 is recorded, advances
`current_question` to 3 (silently skipping question 2) and edits the
message.  The code contradicts the spec at this input. -/
theorem c1_stale_answer_accepted :
    process_answer c1Store "123" 1 4 10 =
      ⟨⟨[⟨"123", "m1", "Sprint", "stu", "in_progress", 3, [("1", 5), ("1", 4)], some 10, ""⟩],
        ["m1"], 20⟩,
       [.editMsg "123" 10], none⟩ := by decide

/-- C2 counterexample: a stale answer citing question 3 is processed on a
freshly started questionnaire.  It is accepted in the code's sense
(`answers[3]` set, `current_question` advanced), so after this first
accepted answer `current_question = 2` but the key set of `answers` is
{3}, not {1}, and {3} is not a prefix of 1..2. -/
theorem c2_stale_breaks_key_set :
    (process_answer c2Store "123" 3 5 10).store.questionnaires.map
        (fun r => (r.current_question, r.answers.map Prod.fst)) = [(2, ["3"])] ∧
    ¬ ("3" :: List.nil = ["1"]) := by decide

/-- The c2 fixture after one in-order answer with score `x`. -/
def c2St1 (x : Int) : Store :=
  ⟨[⟨"123", "m1", "Sprint", "stu", "in_progress", 2, [("1", x)], some 10, ""⟩], ["m1"], 20⟩

/-- The c2 fixture after two in-order answers. -/
def c2St2 (x y : Int) : Store :=
  ⟨[⟨"123", "m1", "Sprint", "stu", "in_progress", 3, [("1", x), ("2", y)], some 10, ""⟩],
   ["m1"], 20⟩

/-- The c2 fixture after three in-order answers. -/
def c2St3 (x y z : Int) : Store :=
  ⟨[⟨"123", "m1", "Sprint", "stu", "in_progress", 4, [("1", x), ("2", y), ("3", z)],
     some 10, ""⟩], ["m1"], 20⟩

/-- The c2 fixture after four in-order answers. -/
def c2St4 (x y z w : Int) : Store :=
  ⟨[⟨"123", "m1", "Sprint", "stu", "in_progress", 5,
     [("1", x), ("2", y), ("3", z), ("4", w)], some 10, ""⟩], ["m1"], 20⟩

/-- The c2 fixture after all five in-order answers: completed. -/
def c2St5 (x y z w v : Int) : Store :=
  ⟨[⟨"123", "m1", "Sprint", "stu", "completed", 6,
     [("1", x), ("2", y), ("3", z), ("4", w), ("5", v)], some 10, ""⟩], ["m1"], 20⟩

/-- C2 amended: when every answer event carries the question index that is
current at that moment (questions answered strictly in order), then after
the k-th accepted answer `current_question = k + 1` and the keys of
`answers` are exactly "1", ..., "k", for every k from 1 to 5 and any
scores. -/
theorem c2_in_order_answers (s1 s2 s3 s4 s5 : Int) :
    ((applyAnswers c2Store "123" [(1, s1)] 10).questionnaires.map
        (fun r => (r.current_question, r.answers.map Prod.fst)) = [(2, ["1"])]) ∧
    ((applyAnswers c2Store "123" [(1, s1), (2, s2)] 10).questionnaires.map
        (fun r => (r.current_question, r.answers.map Prod.fst)) = [(3, ["1", "2"])]) ∧
    ((applyAnswers c2Store "123" [(1, s1), (2, s2), (3, s3)] 10).questionnaires.map
        (fun r => (r.current_question, r.answers.map Prod.fst)) = [(4, ["1", "2", "3"])]) ∧
    ((applyAnswers c2Store "123" [(1, s1), (2, s2), (3, s3), (4, s4)] 10).questionnaires.map
        (fun r => (r.current_question, r.answers.map Prod.fst)) = [(5, ["1", "2", "3", "4"])]) ∧
    ((applyAnswers c2Store "123" [(1, s1), (2, s2), (3, s3), (4, s4), (5, s5)] 10).questionnaires.map
        (fun r => (r.current_question, r.answers.map Prod.fst)) = [(6, ["1", "2", "3", "4", "5"])]) := by
  have h1 : ∀ x : Int, (process_answer c2Store "123" 1 x 10).store = c2St1 x := fun _ => rfl
  have h2 : ∀ x y : Int, (process_answer (c2St1 x) "123" 2 y 10).store = c2St2 x y :=
    fun _ _ => rfl
  have h3 : ∀ x y z : Int, (process_answer (c2St2 x y) "123" 3 z 10).store = c2St3 x y z :=
    fun _ _ _ => rfl
  have h4 : ∀ x y z w : Int, (process_answer (c2St3 x y z) "123" 4 w 10).store = c2St4 x y z w :=
    fun _ _ _ _ => rfl
  have h5 : ∀ x y z w v : Int,
      (process_answer (c2St4 x y z w) "123" 5 v 10).store = c2St5 x y z w v :=
    fun _ _ _ _ _ => rfl
  refine ⟨?_, ?_, ?_, ?_, ?_⟩ <;>
    simp only [applyAnswers, List.foldl, h1, h2, h3, h4, h5] <;> rfl

/-- C6: starting the pending questionnaire and answering the five questions
in order with scores 5, 4, 3, 2, 1 emits a feedback record whose five score
fields are exactly 5, 4, 3, 2, 1.  (Questions 1 to 4 are read back under
string keys and question 5 under the int key 5, which matches how the
in-memory dict was populated, so all five land correctly.) -/
theorem c6_round_trip :
    (process_answer c6Store4 "123" 5 1 7).trace =
      [.editMsg "123" 7,
       .saveFeedback ⟨"m1", "stu", 5, 4, 3, 2, 1, "Sprint Review", "123"⟩,
       .markNotionCompleted "m1"] := by decide

/-- C8: the spec requires a shape error to be caught per meeting so the
rest of the cycle still runs.  In the source the whole `for meeting in
meetings` loop sits inside one `try`, so the malformed first meeting aborts
the cycle: the well-formed second meeting is neither inserted nor marked
processed, although on its own it would have been. -/
theorem c8_shape_error_aborts_cycle :
    (notionCheckerCycle ⟨[], [], 0⟩ [c8BadMeeting, c8GoodMeeting]).1 = ⟨[], [], 0⟩ ∧
    (notionCheckerCycle ⟨[], [], 0⟩ [c8GoodMeeting]).1.processed = ["mGood"] := by decide

/-- C9 counterexample: the payload "start" (one field) reaches
`data[1]` and raises `IndexError` inside the handler, contradicting the
claim that malformed events never produce an index fault and are simply
ignored in place. -/
theorem c9_start_payload_index_fault :
    handle_callback_query ⟨[], [], 0⟩ "start" 1 = ⟨⟨[], [], 0⟩, [], some .indexError⟩ := by
  decide

/-- C4: fixture meeting for the discovery-order witness. -/
def c4Meeting : MeetingRec := ⟨"m4", some "Planning", some "Mentor", some "stu4", some "77"⟩

/-- C4 counterexample: a meeting that is *not* in the processed set but has
a leftover questionnaire row — exactly the state the model reaches after a
send failure (row inserted, id never marked) and the spec's own
crash-between-send-and-mark scenario.  On rediscovery the plain INSERT hits
the `(chat_id, meeting_id)` PRIMARY KEY and raises `IntegrityError`: the
store is unchanged, the trace is empty — none of steps (a)-(d) runs, no
duplicate prompt is sent, and the meeting id is never added to the set —
refuting the claim's "for every meeting not yet in the Processed-Meeting
set, discovery processes it in this order". -/
theorem c4_rediscovery_integrity_error :
    process_meeting ⟨[⟨"9", "mX", "N", "stu", "pending", 0, [], none, ""⟩], [], 3⟩
        ⟨"mX", some "N", some "M", some "stu", some "9"⟩ true =
      ⟨⟨[⟨"9", "mX", "N", "stu", "pending", 0, [], none, ""⟩], [], 3⟩, [],
        some .integrityError⟩ := by decide

/-- C4 amended: for a well-formed, not-yet-processed meeting whose (chat,
meeting) key has no existing questionnaire row, discovery runs exactly
(a) insert the pending row with `current_question = 0` and empty answers,
(b) send the initial prompt, (c) persist the returned message reference,
(d) add the meeting id to the processed set — in that order — and when the
send fails, the trace stops after the insert and the meeting id is never
added to the processed set.  (When a leftover row exists, the re-insert
raises `IntegrityError` instead and nothing of (a)-(d) happens — see the
counterexample.) -/
theorem c4_discovery_order (s : Store) (m : MeetingRec)
    (name mentor student chat : String)
    (hn : m.name = some name) (hm : m.mentor_name = some mentor)
    (hs : m.student_id = some student) (hc : m.chat_id = some chat)
    (hp : m.id ∉ s.processed)
    (hq : lookupQ s chat m.id = none) :
    ((process_meeting s m true).trace =
        [.insertQ ⟨chat, m.id, name, student, "pending", 0, [], none, ""⟩,
         .sendPrompt chat m.id s.nextMsgId,
         .persistRef chat m.id s.nextMsgId,
         .markProcessed m.id] ∧
      (process_meeting s m true).err = none ∧
      (process_meeting s m true).store.processed = s.processed ++ [m.id]) ∧
    ((process_meeting s m false).trace =
        [.insertQ ⟨chat, m.id, name, student, "pending", 0, [], none, ""⟩] ∧
      (process_meeting s m false).store.processed = s.processed) := by
  obtain ⟨i, a, b, c, d⟩ := m
  subst hn; subst hm; subst hs; subst hc
  simp [process_meeting, hp, hq]

/-- C4 witness: the theorem applied to `c4Meeting` on the empty store. -/
theorem c4_discovery_order_witness :
    (c4Meeting.name = some "Planning" ∧ c4Meeting.mentor_name = some "Mentor" ∧
      c4Meeting.student_id = some "stu4" ∧ c4Meeting.chat_id = some "77" ∧
      c4Meeting.id ∉ (Store.mk [] [] 0).processed ∧
      lookupQ ⟨[], [], 0⟩ "77" c4Meeting.id = none) ∧
    ((process_meeting ⟨[], [], 0⟩ c4Meeting true).trace =
        [.insertQ ⟨"77", c4Meeting.id, "Planning", "stu4", "pending", 0, [], none, ""⟩,
         .sendPrompt "77" c4Meeting.id (Store.mk [] [] 0).nextMsgId,
         .persistRef "77" c4Meeting.id (Store.mk [] [] 0).nextMsgId,
         .markProcessed c4Meeting.id] ∧
      (process_meeting ⟨[], [], 0⟩ c4Meeting true).err = none ∧
      (process_meeting ⟨[], [], 0⟩ c4Meeting true).store.processed = [] ++ [c4Meeting.id]) ∧
    ((process_meeting ⟨[], [], 0⟩ c4Meeting false).trace =
        [.insertQ ⟨"77", c4Meeting.id, "Planning", "stu4", "pending", 0, [], none, ""⟩] ∧
      (process_meeting ⟨[], [], 0⟩ c4Meeting false).store.processed = []) :=
  ⟨⟨rfl, rfl, rfl, rfl, by decide, by decide⟩,
    c4_discovery_order ⟨[], [], 0⟩ c4Meeting "Planning" "Mentor" "stu4" "77"
      rfl rfl rfl rfl (by decide) (by decide)⟩

/-- C5: a meeting whose id is already in the processed set is skipped: the
store is left exactly as it was and no effect (no insert, no send, no
update, no mark) is emitted, whether or not the record is well-formed and
whether or not a send would succeed. -/
theorem c5_processed_noop (s : Store) (m : MeetingRec) (sendOk : Bool)
    (hp : m.id ∈ s.processed) :
    (process_meeting s m sendOk).store = s ∧ (process_meeting s m sendOk).trace = [] := by
  obtain ⟨i, a, b, c, d⟩ := m
  cases a <;> cases b <;> cases c <;> cases d <;> simp [process_meeting, hp]

/-- C5 witness: re-delivering the already processed `"m1"` meeting to a
store that contains its questionnaire changes nothing. -/
theorem c5_processed_noop_witness :
    ((MeetingRec.mk "m1" (some "N") (some "M") (some "stu") (some "9")).id ∈
        (Store.mk [⟨"9", "m1", "N", "stu", "pending", 0, [], some 3, ""⟩] ["m1"] 4).processed) ∧
    ((process_meeting ⟨[⟨"9", "m1", "N", "stu", "pending", 0, [], some 3, ""⟩], ["m1"], 4⟩
        ⟨"m1", some "N", some "M", some "stu", some "9"⟩ true).store =
      ⟨[⟨"9", "m1", "N", "stu", "pending", 0, [], some 3, ""⟩], ["m1"], 4⟩ ∧
      (process_meeting ⟨[⟨"9", "m1", "N", "stu", "pending", 0, [], some 3, ""⟩], ["m1"], 4⟩
        ⟨"m1", some "N", some "M", some "stu", some "9"⟩ true).trace = []) :=
  ⟨by decide,
    c5_processed_noop ⟨[⟨"9", "m1", "N", "stu", "pending", 0, [], some 3, ""⟩], ["m1"], 4⟩
      ⟨"m1", some "N", some "M", some "stu", some "9"⟩ true (by decide)⟩

/-- A rewrite step that fixes key fields commutes with the key lookup. -/
theorem lookup_map_keyfix (qs : List Questionnaire) (f : Questionnaire → Questionnaire)
    (hc : ∀ x, (f x).chat_id = x.chat_id) (hm : ∀ x, (f x).meeting_id = x.meeting_id)
    (chat meeting : String) :
    List.find? (fun x => x.chat_id == chat && x.meeting_id == meeting) (qs.map f) =
      (List.find? (fun x => x.chat_id == chat && x.meeting_id == meeting) qs).map f := by
  rw [List.find?_map]
  have hp : ((fun x : Questionnaire => x.chat_id == chat && x.meeting_id == meeting) ∘ f) =
      (fun x : Questionnaire => x.chat_id == chat && x.meeting_id == meeting) :=
    funext fun x => by simp [Function.comp, hc x, hm x]
  rw [hp]

/-- C3: every single operation (create, start, answer) moves the status of
every row forward along pending, in progress, completed without skipping:
the status either stays put, goes pending to in progress, or goes
in progress to completed; in particular nothing moves backward and pending
never jumps straight to completed.  `hnd` is the primary-key uniqueness the
schema enforces on `(chat_id, meeting_id)`. -/
theorem c3_status_monotone (s : Store) (hnd : keysNodup s) (op : Op)
    (chat meeting : String) (r r' : Questionnaire)
    (h : lookupQ s chat meeting = some r)
    (h' : lookupQ (applyOp s op) chat meeting = some r') :
    r'.status = r.status ∨
      (r.status = "pending" ∧ r'.status = "in_progress") ∨
      (r.status = "in_progress" ∧ r'.status = "completed") := by
  have hnd' : (s.questionnaires.map (fun x => (x.chat_id, x.meeting_id))).Nodup := hnd
  simp only [lookupQ] at h h'
  have hrmem : r ∈ s.questionnaires := List.mem_of_find?_eq_some h
  cases op with
  | start c n mid =>
    simp only [applyOp] at h'
    unfold start_questionnaire at h'
    cases hfind : s.questionnaires.find? (fun x => x.chat_id == c && x.status == "pending") with
    | none =>
      rw [hfind] at h'
      dsimp only at h'
      rw [h] at h'
      exact Or.inl (by cases h'; rfl)
    | some row0 =>
      rw [hfind] at h'
      dsimp only at h'
      rw [lookup_map_keyfix s.questionnaires
            (fun x => if x.chat_id == c && x.meeting_id == row0.meeting_id then
              { x with status := "in_progress", current_question := 1 } else x)
            (fun x => by dsimp only; split <;> rfl)
            (fun x => by dsimp only; split <;> rfl) chat meeting] at h'
      rw [h] at h'
      simp only [Option.map_some', Option.some.injEq] at h'
      by_cases hit : (r.chat_id == c && r.meeting_id == row0.meeting_id) = true
      · have hprops := List.find?_some hfind
        simp only [Bool.and_eq_true, beq_iff_eq] at hprops hit
        have hmem0 : row0 ∈ s.questionnaires := List.mem_of_find?_eq_some hfind
        have hrw : r = row0 :=
          List.inj_on_of_nodup_map hnd' hrmem hmem0
            (by simp [hit.1, hit.2, hprops.1])
        rw [← h', if_pos (by simp [hit.1, hit.2])]
        exact Or.inr (Or.inl ⟨by rw [hrw]; exact hprops.2, rfl⟩)
      · rw [← h', if_neg hit]
        exact Or.inl rfl
  | answer c q p mid =>
    simp only [applyOp] at h'
    unfold process_answer at h'
    cases hfind : s.questionnaires.find?
        (fun x => x.chat_id == c && x.status == "in_progress") with
    | none =>
      rw [hfind] at h'
      dsimp only at h'
      rw [h] at h'
      exact Or.inl (by cases h'; rfl)
    | some row0 =>
      rw [hfind] at h'
      dsimp only at h'
      by_cases hnext : row0.current_question + 1 ≤ 5
      · rw [if_pos hnext] at h'
        dsimp only at h'
        rw [lookup_map_keyfix s.questionnaires
              (fun x => if x.chat_id == c && x.meeting_id == row0.meeting_id then
                { x with
                    answers := jsonDumps (dictSet (jsonLoads row0.answers) (.int q) p),
                    current_question := row0.current_question + 1 } else x)
              (fun x => by dsimp only; split <;> rfl)
              (fun x => by dsimp only; split <;> rfl) chat meeting] at h'
        rw [h] at h'
        simp only [Option.map_some', Option.some.injEq] at h'
        by_cases hit : (r.chat_id == c && r.meeting_id == row0.meeting_id) = true
        · rw [← h', if_pos hit]
          exact Or.inl rfl
        · rw [← h', if_neg hit]
          exact Or.inl rfl
      · rw [if_neg hnext] at h'
        dsimp only at h'
        rw [lookup_map_keyfix s.questionnaires
              (fun x => if x.chat_id == c && x.meeting_id == row0.meeting_id then
                { x with
                    answers := jsonDumps (dictSet (jsonLoads row0.answers) (.int q) p),
                    status := "completed",
                    current_question := row0.current_question + 1 } else x)
              (fun x => by dsimp only; split <;> rfl)
              (fun x => by dsimp only; split <;> rfl) chat meeting] at h'
        rw [h] at h'
        simp only [Option.map_some', Option.some.injEq] at h'
        by_cases hit : (r.chat_id == c && r.meeting_id == row0.meeting_id) = true
        · have hprops := List.find?_some hfind
          simp only [Bool.and_eq_true, beq_iff_eq] at hprops hit
          have hmem0 : row0 ∈ s.questionnaires := List.mem_of_find?_eq_some hfind
          have hrw : r = row0 :=
            List.inj_on_of_nodup_map hnd' hrmem hmem0
              (by simp [hit.1, hit.2, hprops.1])
          rw [← h', if_pos (by simp [hit.1, hit.2])]
          exact Or.inr (Or.inr ⟨by rw [hrw]; exact hprops.2, rfl⟩)
        · rw [← h', if_neg hit]
          exact Or.inl rfl
  | create m b =>
    simp only [applyOp] at h'
    unfold process_meeting at h'
    obtain ⟨i, nmo, mto, sto, cho⟩ := m
    have hsame : List.find? (fun x => x.chat_id == chat && x.meeting_id == meeting)
        s.questionnaires = some r' → r'.status = r.status ∨
        (r.status = "pending" ∧ r'.status = "in_progress") ∨
        (r.status = "in_progress" ∧ r'.status = "completed") := by
      intro hh
      rw [h] at hh
      exact Or.inl (by cases hh; rfl)
    cases nmo with
    | none => exact hsame h'
    | some nm =>
    cases mto with
    | none => exact hsame h'
    | some mt =>
    cases sto with
    | none => exact hsame h'
    | some st =>
    cases cho with
    | none => exact hsame h'
    | some ch =>
    dsimp only at h'
    by_cases hpc : (s.processed.contains i) = true
    · rw [if_pos hpc] at h'
      exact hsame h'
    · rw [if_neg hpc] at h'
      by_cases hlk : (lookupQ s ch i).isSome = true
      · rw [if_pos hlk] at h'
        exact hsame h'
      · rw [if_neg hlk] at h'
        have happ : List.find? (fun x => x.chat_id == chat && x.meeting_id == meeting)
            (s.questionnaires ++ [(⟨ch, i, nm, st, "pending", 0, [], none, ""⟩ : Questionnaire)]) =
            some r := by
          rw [List.find?_append, h]
          rfl
        cases b with
        | false =>
          rw [if_neg Bool.false_ne_true] at h'
          dsimp only at h'
          rw [happ] at h'
          exact Or.inl (by cases h'; rfl)
        | true =>
          rw [if_pos rfl] at h'
          dsimp only at h'
          rw [lookup_map_keyfix _
                (fun x => if x.chat_id == ch && x.meeting_id == i then
                  { x with last_message_id := some s.nextMsgId } else x)
                (fun x => by dsimp only; split <;> rfl)
                (fun x => by dsimp only; split <;> rfl) chat meeting] at h'
          rw [happ] at h'
          simp only [Option.map_some', Option.some.injEq] at h'
          by_cases hit : (r.chat_id == ch && r.meeting_id == i) = true
          · rw [← h', if_pos hit]
            exact Or.inl rfl
          · rw [← h', if_neg hit]
            exact Or.inl rfl

/-- C3 witness: the theorem applied to a one-row pending store and a start
operation, which takes the row from pending to in progress. -/
theorem c3_status_monotone_witness :
    (keysNodup ⟨[⟨"5", "m3", "N", "stu", "pending", 0, [], some 1, ""⟩], [], 2⟩ ∧
      lookupQ ⟨[⟨"5", "m3", "N", "stu", "pending", 0, [], some 1, ""⟩], [], 2⟩ "5" "m3" =
        some ⟨"5", "m3", "N", "stu", "pending", 0, [], some 1, ""⟩ ∧
      lookupQ (applyOp ⟨[⟨"5", "m3", "N", "stu", "pending", 0, [], some 1, ""⟩], [], 2⟩
          (Op.start "5" "N" 1)) "5" "m3" =
        some ⟨"5", "m3", "N", "stu", "in_progress", 1, [], some 1, ""⟩) ∧
    ((⟨"5", "m3", "N", "stu", "in_progress", 1, [], some 1, ""⟩ : Questionnaire).status =
        (⟨"5", "m3", "N", "stu", "pending", 0, [], some 1, ""⟩ : Questionnaire).status ∨
      ((⟨"5", "m3", "N", "stu", "pending", 0, [], some 1, ""⟩ : Questionnaire).status = "pending" ∧
        (⟨"5", "m3", "N", "stu", "in_progress", 1, [], some 1, ""⟩ : Questionnaire).status =
          "in_progress") ∨
      ((⟨"5", "m3", "N", "stu", "pending", 0, [], some 1, ""⟩ : Questionnaire).status =
          "in_progress" ∧
        (⟨"5", "m3", "N", "stu", "in_progress", 1, [], some 1, ""⟩ : Questionnaire).status =
          "completed")) :=
  ⟨⟨by unfold keysNodup; decide, by decide, by decide⟩,
    c3_status_monotone ⟨[⟨"5", "m3", "N", "stu", "pending", 0, [], some 1, ""⟩], [], 2⟩
      (by unfold keysNodup; decide) (Op.start "5" "N" 1) "5" "m3"
      ⟨"5", "m3", "N", "stu", "pending", 0, [], some 1, ""⟩
      ⟨"5", "m3", "N", "stu", "in_progress", 1, [], some 1, ""⟩
      (by decide) (by decide)⟩

/-- A reminder pass leaves every non-pending row exactly as it was. -/
theorem remindRows_keeps_nonpending (r : Questionnaire) (qs : List Questionnaire)
    (hr : r ∈ qs) (hs : ¬ r.status = "pending") :
    ∀ ctr, r ∈ (remindRows qs ctr).1 := by
  induction hr with
  | head t =>
    intro ctr
    simp only [remindRows]
    rw [if_neg (by simpa using hs)]
    exact List.mem_cons_self _ _
  | tail b hmem ih =>
    intro ctr
    simp only [remindRows]
    by_cases hb : (b.status == "pending") = true
    · rw [if_pos hb]
      exact List.mem_cons_of_mem _ (ih (ctr + 1))
    · rw [if_neg hb]
      exact List.mem_cons_of_mem _ (ih ctr)

/-- Every prompt a reminder pass sends belongs to some pending row, and it
carries that row's chat and meeting ids. -/
theorem remindRows_send_sources (ch m : String) (n : Nat) :
    ∀ (qs : List Questionnaire) (ctr : Nat),
      Effect.sendPrompt ch m n ∈ (remindRows qs ctr).2.2 →
      ∃ x, x ∈ qs ∧ x.status = "pending" ∧ x.chat_id = ch ∧ x.meeting_id = m := by
  intro qs
  induction qs with
  | nil =>
    intro ctr hmem
    simp [remindRows] at hmem
  | cons a t ih =>
    intro ctr hmem
    simp only [remindRows] at hmem
    by_cases ha : (a.status == "pending") = true
    · rw [if_pos ha] at hmem
      rcases List.mem_append.mp hmem with hdel | hrest
      · exfalso
        cases hlast : a.last_message_id with
        | none => rw [hlast] at hdel; simp at hdel
        | some old => rw [hlast] at hdel; simp at hdel
      · rcases List.mem_cons.mp hrest with heq | hrest2
        · refine ⟨a, List.mem_cons_self _ _, by simpa using ha, ?_, ?_⟩
          · cases heq; rfl
          · cases heq; rfl
        · obtain ⟨x, hx, hxs⟩ := ih (ctr + 1) hrest2
          exact ⟨x, List.mem_cons_of_mem _ hx, hxs⟩
    · rw [if_neg ha] at hmem
      obtain ⟨x, hx, hxs⟩ := ih ctr hmem
      exact ⟨x, List.mem_cons_of_mem _ hx, hxs⟩

/-- A reminder pass re-prompts every pending row: its old prompt is deleted
when one was recorded, a fresh prompt is sent for it, and the row is kept
with its `last_message_id` replaced by the new reference. -/
theorem remindRows_pending (r : Questionnaire) (qs : List Questionnaire)
    (hr : r ∈ qs) (hp : r.status = "pending") :
    ∀ ctr, ∃ n, { r with last_message_id := some n } ∈ (remindRows qs ctr).1 ∧
      Effect.sendPrompt r.chat_id r.meeting_id n ∈ (remindRows qs ctr).2.2 ∧
      ∀ old, r.last_message_id = some old →
        Effect.deleteMsg r.chat_id old ∈ (remindRows qs ctr).2.2 := by
  induction hr with
  | head t =>
    intro ctr
    refine ⟨ctr, ?_, ?_, ?_⟩
    · simp only [remindRows]
      rw [if_pos (by simp [hp])]
      exact List.mem_cons_self _ _
    · simp only [remindRows]
      rw [if_pos (by simp [hp])]
      exact List.mem_append_right _ (List.mem_cons_self _ _)
    · intro old hold
      simp only [remindRows]
      rw [if_pos (by simp [hp])]
      apply List.mem_append_left
      rw [hold]
      exact List.mem_singleton.mpr rfl
  | tail b hmem ih =>
    intro ctr
    simp only [remindRows]
    by_cases hb : (b.status == "pending") = true
    · rw [if_pos hb]
      obtain ⟨n, h1, h2, h3⟩ := ih (ctr + 1)
      exact ⟨n, List.mem_cons_of_mem _ h1,
        List.mem_append_right _ (List.mem_cons_of_mem _ h2),
        fun old hold => List.mem_append_right _ (List.mem_cons_of_mem _ (h3 old hold))⟩
    · rw [if_neg hb]
      obtain ⟨n, h1, h2, h3⟩ := ih ctr
      exact ⟨n, List.mem_cons_of_mem _ h1, h2, h3⟩

/-- C7: a reminder cycle re-prompts exactly the pending questionnaires.  A
row that is not pending is carried over unchanged and no prompt for its
(chat, meeting) pair is sent; a pending row gets its previous prompt
deleted (when one was recorded), a fresh prompt sent, and its
`last_message_id` updated to the fresh reference.  `hnd` is the
`(chat_id, meeting_id)` primary-key uniqueness. -/
theorem c7_reminder_exactly_pending (s : Store) (hnd : keysNodup s)
    (r : Questionnaire) (hr : r ∈ s.questionnaires) :
    (¬ r.status = "pending" →
        r ∈ (reminderCycle s).1.questionnaires ∧
        ∀ n, Effect.sendPrompt r.chat_id r.meeting_id n ∉ (reminderCycle s).2) ∧
    (r.status = "pending" →
        ∃ n, { r with last_message_id := some n } ∈ (reminderCycle s).1.questionnaires ∧
          Effect.sendPrompt r.chat_id r.meeting_id n ∈ (reminderCycle s).2 ∧
          ∀ old, r.last_message_id = some old →
            Effect.deleteMsg r.chat_id old ∈ (reminderCycle s).2) := by
  have hnd' : (s.questionnaires.map (fun x => (x.chat_id, x.meeting_id))).Nodup := hnd
  constructor
  · intro hs
    constructor
    · exact remindRows_keeps_nonpending r s.questionnaires hr hs s.nextMsgId
    · intro n hmem
      obtain ⟨x, hx, hxp, hxc, hxm⟩ :=
        remindRows_send_sources r.chat_id r.meeting_id n s.questionnaires s.nextMsgId hmem
      have hxr : x = r := List.inj_on_of_nodup_map hnd' hx hr (by simp [hxc, hxm])
      exact hs (hxr ▸ hxp)
  · intro hp
    exact remindRows_pending r s.questionnaires hr hp s.nextMsgId

/-- Fixture for the C7 witness: one pending row with an old prompt and one
completed row. -/
def c7WS : Store :=
  ⟨[⟨"8", "mp", "P", "stu", "pending", 0, [], some 5, ""⟩,
    ⟨"8", "mc", "C", "stu", "completed", 6, [], some 4, ""⟩], [], 30⟩

/-- C7 witness: the theorem applied to `c7WS` and its pending row. -/
theorem c7_reminder_exactly_pending_witness :
    (keysNodup c7WS ∧
      (⟨"8", "mp", "P", "stu", "pending", 0, [], some 5, ""⟩ : Questionnaire) ∈
        c7WS.questionnaires) ∧
    ((¬ (⟨"8", "mp", "P", "stu", "pending", 0, [], some 5, ""⟩ : Questionnaire).status =
          "pending" →
        (⟨"8", "mp", "P", "stu", "pending", 0, [], some 5, ""⟩ : Questionnaire) ∈
          (reminderCycle c7WS).1.questionnaires ∧
        ∀ n, Effect.sendPrompt
            (⟨"8", "mp", "P", "stu", "pending", 0, [], some 5, ""⟩ : Questionnaire).chat_id
            (⟨"8", "mp", "P", "stu", "pending", 0, [], some 5, ""⟩ : Questionnaire).meeting_id n ∉
          (reminderCycle c7WS).2) ∧
      ((⟨"8", "mp", "P", "stu", "pending", 0, [], some 5, ""⟩ : Questionnaire).status =
          "pending" →
        ∃ n, { (⟨"8", "mp", "P", "stu", "pending", 0, [], some 5, ""⟩ : Questionnaire) with
              last_message_id := some n } ∈ (reminderCycle c7WS).1.questionnaires ∧
          Effect.sendPrompt
              (⟨"8", "mp", "P", "stu", "pending", 0, [], some 5, ""⟩ : Questionnaire).chat_id
              (⟨"8", "mp", "P", "stu", "pending", 0, [], some 5, ""⟩ : Questionnaire).meeting_id n ∈
            (reminderCycle c7WS).2 ∧
          ∀ old, (⟨"8", "mp", "P", "stu", "pending", 0, [], some 5, ""⟩ :
              Questionnaire).last_message_id = some old →
            Effect.deleteMsg
                (⟨"8", "mp", "P", "stu", "pending", 0, [], some 5, ""⟩ :
                  Questionnaire).chat_id old ∈ (reminderCycle c7WS).2)) :=
  ⟨⟨by unfold keysNodup; decide, by decide⟩,
    c7_reminder_exactly_pending c7WS (by unfold keysNodup; decide)
      ⟨"8", "mp", "P", "stu", "pending", 0, [], some 5, ""⟩ (by decide)⟩

/-- Starting a questionnaire never raises. -/
theorem start_questionnaire_err_none (s : Store) (c n : String) (mid : Nat) :
    (start_questionnaire s c n mid).err = none := by
  unfold start_questionnaire
  split <;> rfl

/-- Processing an answer never raises. -/
theorem process_answer_err_none (s : Store) (c : String) (q p : Int) (mid : Nat) :
    (process_answer s c q p mid).err = none := by
  unfold process_answer
  split
  · rfl
  · dsimp only
    split <;> rfl

/-- Every callback handling either ends without an exception, or the raise
happened during payload parsing, before any store access or send. -/
theorem handle_callback_query_cases (s : Store) (payload : String) (mid : Nat) :
    (handle_callback_query s payload mid).err = none ∨
      ((handle_callback_query s payload mid).store = s ∧
        (handle_callback_query s payload mid).trace = []) := by
  unfold handle_callback_query
  dsimp only
  split
  · split
    · exact Or.inr ⟨rfl, rfl⟩
    · exact Or.inl (start_questionnaire_err_none _ _ _ _)
  · split
    · split
      · split
        · exact Or.inr ⟨rfl, rfl⟩
        · split
          · exact Or.inr ⟨rfl, rfl⟩
          · split
            · exact Or.inr ⟨rfl, rfl⟩
            · split
              · exact Or.inr ⟨rfl, rfl⟩
              · exact Or.inl (process_answer_err_none _ _ _ _ _)
      · exact Or.inr ⟨rfl, rfl⟩
    · exact Or.inr ⟨rfl, rfl⟩

/-- C9 amended: a malformed inbound payload (missing or non-numeric
positional fields) changes no questionnaire state and emits no message
effect — but not because the handler validates and ignores it: the handler
raises an `IndexError`/`ValueError` while parsing (see the accompanying
counterexample), which the polling loop catches.  Whenever handling raised,
the store is exactly as before and the effect trace is empty. -/
theorem c9_malformed_no_state_change (s : Store) (payload : String) (mid : Nat) (e : PyErr)
    (h : (handle_callback_query s payload mid).err = some e) :
    (handle_callback_query s payload mid).store = s ∧
      (handle_callback_query s payload mid).trace = [] := by
  rcases handle_callback_query_cases s payload mid with he | hok
  · rw [he] at h; cases h
  · exact hok

/-- C9 witness: the theorem applied to the non-numeric answer payload
"answer,123,m1,x,5" on a store with one in-progress questionnaire. -/
theorem c9_malformed_no_state_change_witness :
    ((handle_callback_query
        ⟨[⟨"123", "m1", "N", "stu", "in_progress", 1, [], some 2, ""⟩], ["m1"], 9⟩
        "answer,123,m1,x,5" 2).err = some PyErr.valueError) ∧
    ((handle_callback_query
        ⟨[⟨"123", "m1", "N", "stu", "in_progress", 1, [], some 2, ""⟩], ["m1"], 9⟩
        "answer,123,m1,x,5" 2).store =
      ⟨[⟨"123", "m1", "N", "stu", "in_progress", 1, [], some 2, ""⟩], ["m1"], 9⟩ ∧
      (handle_callback_query
        ⟨[⟨"123", "m1", "N", "stu", "in_progress", 1, [], some 2, ""⟩], ["m1"], 9⟩
        "answer,123,m1,x,5" 2).trace = []) :=
  ⟨by decide,
    c9_malformed_no_state_change
      ⟨[⟨"123", "m1", "N", "stu", "in_progress", 1, [], some 2, ""⟩], ["m1"], 9⟩
      "answer,123,m1,x,5" 2 PyErr.valueError (by decide)⟩

/-- C10: `start_questionnaire` receives the meeting name carried by the
payload but never reads it, so two start events on the same chat that
differ only in their meeting-name field produce identical results: the row
to start is selected solely by chat id and pending status. -/
theorem c10_start_independent_of_meeting_name (s : Store) (chat n1 n2 : String) (mid : Nat) :
    start_questionnaire s chat n1 mid = start_questionnaire s chat n2 mid := rfl

end FeedbackBot
